import Mathlib

/-!
Verification of the prompt-generator Streamlit application (`src/app.py`)
against its natural-language specification.

The embedding is shallow: the Python script is translated into pure Lean
functions.  JSON values parsed by `response.json()` become the inductive
`Json`; Python exceptions become the inductive `PyError`; the network is an
explicit parameter `net : Request → Except PyError HttpResponse` giving the
outcome of each `requests.post` call; the Streamlit run of the script becomes
a function from the widget-input state to the list of UI/network effects the
run produces, with `st.stop()` modelled as truncation of the effect list.
-/

namespace PromptGen

/-! ## Definitions: the shallow embedding of `src/app.py` -/

/-- Shallow model of a parsed JSON value (the result of `response.json()`). -/
inductive Json where
  | null
  | bool (b : Bool)
  | num (n : Int)
  | str (s : String)
  | arr (xs : List Json)
  | obj (fields : List (String × Json))

/-- Python exceptions that the script can raise, grouped by the spec's
taxonomy: `httpError` is `requests.HTTPError` from `raise_for_status`
(carrying the response status and body); `jsonDecodeError`, `keyError`,
`indexError` and `typeError` arise while parsing/extracting from the body;
`transportError` is a network-layer failure of `requests.post` itself. -/
inductive PyError where
  | httpError (status : Nat) (body : String)
  | jsonDecodeError
  | keyError (key : String)
  | indexError
  | typeError
  | transportError (msg : String)
deriving DecidableEq

/-- The spec's `ProviderError` class: any failure of the provider call other
than a network-layer (`TransportError`) failure. -/
def PyError.isProviderError : PyError → Bool
  | .transportError _ => false
  | _ => true

/-- The body-parsing subfamily of provider errors (not carrying a status). -/
def PyError.isParseError : PyError → Bool
  | .jsonDecodeError => true
  | .keyError _ => true
  | .indexError => true
  | .typeError => true
  | _ => false

/-- Rendering of an exception as Python's `str(e)` (shallow model; the
script only interpolates this into user-facing error messages). -/
def PyError.toMessage : PyError → String
  | .httpError status body => "HTTP " ++ toString status ++ ": " ++ body
  | .jsonDecodeError => "JSONDecodeError"
  | .keyError key => "KeyError: " ++ key
  | .indexError => "IndexError"
  | .typeError => "TypeError"
  | .transportError msg => msg

/-- Model of a `requests` response: `status_code`, the raw body `text`, and
`jsonBody`, the parse of the body (`none` when the body is malformed JSON, in
which case `response.json()` raises). -/
structure HttpResponse where
  status_code : Nat
  text : String
  jsonBody : Option Json

/-- Model of `response.raise_for_status()`: raises `requests.HTTPError`
carrying the status and body exactly when the status is 4xx or 5xx. -/
def raise_for_status (r : HttpResponse) : Except PyError Unit :=
  if 400 ≤ r.status_code ∧ r.status_code < 600 then
    .error (.httpError r.status_code r.text)
  else
    .ok ()

/-- Model of `response.json()`: the parsed body, or `JSONDecodeError`. -/
def HttpResponse.json (r : HttpResponse) : Except PyError Json :=
  match r.jsonBody with
  | some j => .ok j
  | none => .error .jsonDecodeError

/-- Python subscripting `j[key]` with a string key: dict lookup (raising
`KeyError` when missing); any non-dict raises `TypeError`. -/
def Json.getKey : Json → String → Except PyError Json
  | .obj fields, key =>
    match fields.lookup key with
    | some v => .ok v
    | none => .error (.keyError key)
  | _, _ => .error .typeError

/-- Python subscripting `j[i]` with a non-negative integer: list indexing
(raising `IndexError` out of range); indexing a JSON string yields its
one-character substring; a dict raises `KeyError` (the integer is not a
key of any parsed-JSON dict); other values raise `TypeError`. -/
def Json.getIdx : Json → Nat → Except PyError Json
  | .arr xs, i =>
    match xs[i]? with
    | some v => .ok v
    | none => .error .indexError
  | .str s, i =>
    match s.data[i]? with
    | some c => .ok (.str (String.mk [c]))
    | none => .error .indexError
  | .obj _, i => .error (.keyError (toString i))
  | _, _ => .error .typeError

/-- An outbound `requests.post` call: URL, headers, and JSON request body. -/
structure Request where
  url : String
  headers : List (String × String)
  data : Json

/-- The network environment: the outcome (`HttpResponse`, or a raised
exception) of each `requests.post` call the script may make. -/
def Net : Type := Request → Except PyError HttpResponse

/-- The request built by `call_claude` (URL, headers and body from the
source; the API key comes from `st.secrets`). -/
def claudeRequest (secrets : String → String) (prompt : String) : Request :=
  { url := "https://api.anthropic.com/v1/messages"
    headers := [("x-api-key", secrets "ANTHROPIC_API_KEY"),
                ("content-type", "application/json")]
    data := Json.obj [("model", Json.str "claude-3-5-sonnet-20241022"),
                      ("max_tokens", Json.num 1500),
                      ("messages", Json.arr [Json.obj
                        [("role", Json.str "user"),
                         ("content", Json.str prompt)]])] }

/-- The request built by `call_gpt4o`. -/
def gpt4oRequest (secrets : String → String) (prompt : String) : Request :=
  { url := "https://api.openai.com/v1/chat/completions"
    headers := [("Authorization", "Bearer " ++ secrets "OPENAI_API_KEY"),
                ("Content-Type", "application/json")]
    data := Json.obj [("model", Json.str "gpt-4o"),
                      ("messages", Json.arr [Json.obj
                        [("role", Json.str "user"),
                         ("content", Json.str prompt)]])] }

/-- The request built by `call_deepseek`. -/
def deepseekRequest (secrets : String → String) (prompt : String) : Request :=
  { url := "https://api.deepseek.com/v1/chat/completions"
    headers := [("Authorization", "Bearer " ++ secrets "DEEPSEEK_API_KEY"),
                ("Content-Type", "application/json")]
    data := Json.obj [("model", Json.str "deepseek-chat"),
                      ("messages", Json.arr [Json.obj
                        [("role", Json.str "user"),
                         ("content", Json.str prompt)]])] }

/-- Extraction path of `call_claude`: `response.json()["content"][0]["text"]`.
The extracted value is returned as-is; Python never checks it is a string. -/
def claudeExtract (j : Json) : Except PyError Json :=
  (j.getKey "content").bind fun content =>
    (content.getIdx 0).bind fun first =>
      first.getKey "text"

/-- Extraction path of `call_gpt4o` and `call_deepseek`:
`response.json()["choices"][0]["message"]["content"]`. -/
def openaiExtract (j : Json) : Except PyError Json :=
  (j.getKey "choices").bind fun choices =>
    (choices.getIdx 0).bind fun first =>
      (first.getKey "message").bind fun message =>
        message.getKey "content"

/-- Function `call_claude(prompt)` from the source: one `requests.post`, then
`raise_for_status`, then `response.json()["content"][0]["text"]`. -/
def call_claude (secrets : String → String) (net : Net) (prompt : String) :
    Except PyError Json :=
  (net (claudeRequest secrets prompt)).bind fun response =>
    (raise_for_status response).bind fun _ =>
      response.json.bind fun j => claudeExtract j

/-- Function `call_gpt4o(prompt)` from the source. -/
def call_gpt4o (secrets : String → String) (net : Net) (prompt : String) :
    Except PyError Json :=
  (net (gpt4oRequest secrets prompt)).bind fun response =>
    (raise_for_status response).bind fun _ =>
      response.json.bind fun j => openaiExtract j

/-- Function `call_deepseek(prompt)` from the source. -/
def call_deepseek (secrets : String → String) (net : Net) (prompt : String) :
    Except PyError Json :=
  (net (deepseekRequest secrets prompt)).bind fun response =>
    (raise_for_status response).bind fun _ =>
      response.json.bind fun j => openaiExtract j

/-- The three provider variants (spec: ProviderA/B/C). -/
inductive Provider where
  | claude
  | gpt4o
  | deepseek
deriving DecidableEq

/-- The request each provider variant sends for a given prompt. -/
def providerRequest : Provider → (String → String) → String → Request
  | .claude => claudeRequest
  | .gpt4o => gpt4oRequest
  | .deepseek => deepseekRequest

/-- The JSON extraction path of each provider variant. -/
def providerExtract : Provider → Json → Except PyError Json
  | .claude => claudeExtract
  | .gpt4o => openaiExtract
  | .deepseek => openaiExtract

/-- Dispatch to the provider-specific call function. -/
def callProvider : Provider → (String → String) → Net → String →
    Except PyError Json
  | .claude => call_claude
  | .gpt4o => call_gpt4o
  | .deepseek => call_deepseek

/-- Everything in `META_PROMPT_TEMPLATE` before the `**PROJECT IDEA:**`
header (the template is a triple-quoted Python string beginning with a
newline). -/
def segIntro : String :=
  "\nYou are an Expert AI Prompt Engineer specializing in generating highly effective prompts for coding and development tasks.\n\nYour task is to create a detailed, structured prompt that I can use with any AI model to solve the following problem:\n\n"

/-- The part of the template between the `{requirements}` placeholder and the
`**Role:**` header. -/
def segStruct : String :=
  "\n\nPlease follow this exact structure for the output prompt:\n\n---\n"

/-- Template text between the `**Role:**` and `**Context:**` headers. -/
def segRoleTail : String :=
  " [Describe the expert role, e.g., \"Senior Full-Stack Developer with 10+ years of experience in React and Node.js\"]\n"

/-- Template text between the `**Context:**` and `**Task Instructions:**`
headers. -/
def segContextTail : String :=
  " [Briefly explain the project, tech stack, and constraints]\n"

/-- Template text between the `**Task Instructions:**` and `**Constraints:**`
headers (the source has a trailing space after `**Task Instructions:**`). -/
def segTaskTail : String :=
  " \n1. [Step 1]\n2. [Step 2]\n...\n"

/-- Template text between the `**Constraints:**` and `**Output Format:**`
headers. -/
def segConstraintsTail : String :=
  "\n- Must include [specific requirement 1]\n- Must avoid [specific restriction 1]\n...\n"

/-- Template text after the `**Output Format:**` header. -/
def segOutputTail : String :=
  "\n- Provide complete, runnable code blocks.\n- Include error handling.\n- Add comments explaining key sections.\n- Do NOT use placeholders like \"// ...\".\n---\n"

/-- The template up to and including the line of the `{project_idea}`
placeholder, exclusive of the placeholder itself. -/
def templatePre : String := segIntro ++ "**PROJECT IDEA:**" ++ "\n"

/-- The template between the two placeholders. -/
def templateMid : String := "\n\n" ++ "**REQUIREMENTS:**" ++ "\n"

/-- The template after the `{requirements}` placeholder. -/
def templatePost : String :=
  segStruct ++ "**Role:**" ++ segRoleTail ++ "**Context:**" ++ segContextTail ++
  "**Task Instructions:**" ++ segTaskTail ++ "**Constraints:**" ++
  segConstraintsTail ++ "**Output Format:**" ++ segOutputTail

/-- Constant `META_PROMPT_TEMPLATE` from the source, with its two `str.format`
replacement fields. -/
def META_PROMPT_TEMPLATE : String :=
  templatePre ++ "{project_idea}" ++ templateMid ++ "{requirements}" ++ templatePost

/-- Model of `META_PROMPT_TEMPLATE.format(project_idea=…, requirements=…)`:
`str.format` replaces the two fields with the given values verbatim (the
template contains no brace escapes, and replacement values are never
re-scanned for braces). -/
def metaPromptFormat (project_idea requirements : String) : String :=
  templatePre ++ project_idea ++ templateMid ++ requirements ++ templatePost

/-- Predicate stating that `sub` occurs verbatim (contiguously) in `s`. -/
def occursIn (sub s : String) : Prop := ∃ a b : String, s = a ++ sub ++ b

/-- The template's seven section headers occur in `s`, in the template's
fixed order. -/
def headersInOrder (s : String) : Prop :=
  ∃ a0 a1 a2 a3 a4 a5 a6 a7 : String,
    s = a0 ++ "**PROJECT IDEA:**" ++ a1 ++ "**REQUIREMENTS:**" ++ a2 ++
        "**Role:**" ++ a3 ++ "**Context:**" ++ a4 ++ "**Task Instructions:**" ++
        a5 ++ "**Constraints:**" ++ a6 ++ "**Output Format:**" ++ a7

/-- Python's `in` operator on strings (`"Claude" in model`): contiguous
substring test. -/
def strInAux (pat : List Char) : List Char → Bool
  | [] => pat.isEmpty
  | c :: rest => pat.isPrefixOf (c :: rest) || strInAux pat rest

/-- Model of the Python expression `sub in s` (substring membership). -/
def pyIn (sub s : String) : Bool := strInAux sub.data s.data

/-- The widget-input state of one run of the script. -/
structure UIInput where
  model : String
  project_idea : String
  requirements : String
  generate_clicked : Bool
  compare : Bool

/-- One observable effect of a run of the script.  Effects targeted at one
of the three comparison columns carry `some col`; effects in the main page
area carry `none`. -/
inductive Effect where
  | setPageConfig (pageTitle layout : String)
  | title (text : String)
  | markdownText (text : String)
  | sidebarHeader (text : String)
  | header (text : String)
  | spinner (text : String)
  | makeColumns (n : Nat)
  | subheader (col : Option Nat) (text : String)
  | codeBlock (col : Option Nat) (content : Json) (language : String)
  | downloadButton (col : Option Nat) (label : String) (data : Json)
      (fileName : String) (mime : Option String) (key : Option String)
  | errorMsg (col : Option Nat) (text : String)
  | callStart (p : Provider) (prompt : String)
  | callEnd (p : Provider) (result : Except PyError Json)
  | stopRun

/-- The effects emitted before the generate button's handler (page config,
title, intro markdown, sidebar header, main header). -/
def introEffects : List Effect :=
  [.setPageConfig "🚀 AI Prompt Generator" "wide",
   .title "🚀 **AI Prompt Generator for Coding**",
   .markdownText "\nGenerate **highly accurate, structured prompts** optimized for coding tasks.  \nChoose an AI model, describe your task, and get a ready-to-use prompt!\n",
   .sidebarHeader "🧠 Select AI Model",
   .header "📝 Describe Your Coding Task"]

/-- Python `requirements if requirements else "No extra requirements."`:
the empty string is falsy, any other string truthy. -/
def pySentinel (requirements : String) : String :=
  if requirements = "" then "No extra requirements." else requirements

/-- The single-model dispatch (`if "Claude" in model … elif "GPT" in model …
else DeepSeek`). -/
def selectedProvider (model : String) : Provider :=
  if pyIn "Claude" model then .claude
  else if pyIn "GPT" model then .gpt4o
  else .deepseek

/-- The `f"Error with … API: {e}"` message label in single-model mode. -/
def errorLabel : Provider → String
  | .claude => "Error with Claude API: "
  | .gpt4o => "Error with GPT-4o API: "
  | .deepseek => "Error with DeepSeek API: "

/-- The generate-button handler (lines 144–185).  Returns the effects the
handler emits and whether it executed `st.stop()` (which aborts the rest of
the script). -/
def singleSection (ui : UIInput) (secrets : String → String) (net : Net) :
    List Effect × Bool :=
  if ui.generate_clicked then
    if ui.project_idea = "" then
      ([.errorMsg none "Please enter a project idea."], false)
    else
      let meta_prompt := metaPromptFormat ui.project_idea (pySentinel ui.requirements)
      let p := selectedProvider ui.model
      match callProvider p secrets net meta_prompt with
      | .error e =>
        ([.spinner "Crafting your perfect prompt...",
          .callStart p meta_prompt, .callEnd p (.error e),
          .errorMsg none (errorLabel p ++ e.toMessage), .stopRun], true)
      | .ok result =>
        ([.spinner "Crafting your perfect prompt...",
          .callStart p meta_prompt, .callEnd p (.ok result),
          .header "✅ Generated Prompt",
          .codeBlock none result "markdown",
          .downloadButton none "📋 Copy Prompt to Clipboard" result
            "ai_prompt.md" (some "text/markdown") none], false)
  else ([], false)

/-- Column index of each provider's comparison slot. -/
def slotCol : Provider → Nat
  | .claude => 0
  | .gpt4o => 1
  | .deepseek => 2

/-- Subheader shown in each provider's comparison slot. -/
def slotName : Provider → String
  | .claude => "Claude 3.5 Sonnet"
  | .gpt4o => "GPT-4o"
  | .deepseek => "DeepSeek V3"

/-- Download file name used in each provider's comparison slot. -/
def slotFileName : Provider → String
  | .claude => "claude_prompt.md"
  | .gpt4o => "gpt_prompt.md"
  | .deepseek => "deepseek_prompt.md"

/-- Widget key of the download button in each provider's comparison slot. -/
def slotKey : Provider → String
  | .claude => "claude_dl"
  | .gpt4o => "gpt_dl"
  | .deepseek => "deepseek_dl"

/-- The `f"… Error: {e}"` message label of each comparison slot. -/
def slotErrLabel : Provider → String
  | .claude => "Claude Error: "
  | .gpt4o => "GPT-4o Error: "
  | .deepseek => "DeepSeek Error: "

/-- One provider's comparison slot (a `try:/except:` block): subheader, the
call, then either code block plus download button, or the error message in
the same column (lines 195–247). -/
def comparisonSlot (p : Provider) (secrets : String → String) (net : Net)
    (prompt : String) : List Effect :=
  match callProvider p secrets net prompt with
  | .ok result =>
    [.subheader (some (slotCol p)) (slotName p),
     .callStart p prompt, .callEnd p (.ok result),
     .codeBlock (some (slotCol p)) result "markdown",
     .downloadButton (some (slotCol p)) "Download" result (slotFileName p)
       none (some (slotKey p))]
  | .error e =>
    [.subheader (some (slotCol p)) (slotName p),
     .callStart p prompt, .callEnd p (.error e),
     .errorMsg (some (slotCol p)) (slotErrLabel p ++ e.toMessage)]

/-- The comparison-mode section (lines 187–247): header, then — when the
checkbox is set and the project idea is truthy — the three slots in source
order.  Each slot renders the prompt with the raw `requirements` value. -/
def comparisonSection (ui : UIInput) (secrets : String → String) (net : Net) :
    List Effect :=
  Effect.header "🆚 Compare Multiple Models" ::
    (if ui.compare ∧ ui.project_idea ≠ "" then
      Effect.spinner "Comparing models..." :: Effect.makeColumns 3 ::
        (comparisonSlot .claude secrets net
            (metaPromptFormat ui.project_idea ui.requirements) ++
         comparisonSlot .gpt4o secrets net
            (metaPromptFormat ui.project_idea ui.requirements) ++
         comparisonSlot .deepseek secrets net
            (metaPromptFormat ui.project_idea ui.requirements))
    else [])

/-- One full run of the script: intro effects, the generate-button handler,
then — unless that handler hit `st.stop()` — the comparison section. -/
def runScript (ui : UIInput) (secrets : String → String) (net : Net) :
    List Effect :=
  introEffects ++ (singleSection ui secrets net).1 ++
    (if (singleSection ui secrets net).2 then [] else comparisonSection ui secrets net)

/-- A secret store holding the same key for every name. -/
def mockSecrets : String → String := fun _ => "test-key"

/-- ProviderA's (Claude's) expected 200-body shape carrying text `X`. -/
def claudeBody (X : String) : Json :=
  Json.obj [("content", Json.arr [Json.obj [("text", Json.str X)]])]

/-- ProviderB/C's (GPT-4o's/DeepSeek's) expected 200-body shape carrying
text `X`. -/
def openaiBody (X : String) : Json :=
  Json.obj [("choices", Json.arr
    [Json.obj [("message", Json.obj [("content", Json.str X)])]])]

/-- A network answering every provider with its expected 200 shape. -/
def okNet : Net := fun req =>
  if req.url = "https://api.anthropic.com/v1/messages" then
    .ok ⟨200, "", some (claudeBody "X")⟩
  else
    .ok ⟨200, "", some (openaiBody "X")⟩

/-- A 401 response with an unparseable body. -/
def resp401 : HttpResponse := ⟨401, "Unauthorized", none⟩

/-- A network answering every request with `resp401`. -/
def net401 : Net := fun _ => .ok resp401

/-- A 304 (non-2xx, non-4xx/5xx) response whose body has ProviderA's
expected shape. -/
def resp304 : HttpResponse := ⟨304, "not modified", some (claudeBody "X")⟩

/-- A network answering every request with `resp304`. -/
def net304 : Net := fun _ => .ok resp304

/-- A body violating ProviderA's expected shape at the leaf: the value under
`content[0].text` is the number 42, not a string. -/
def bodyNumLeaf : Json :=
  Json.obj [("content", Json.arr [Json.obj [("text", Json.num 42)]])]

/-- A 200 response carrying `bodyNumLeaf`. -/
def respNumLeaf : HttpResponse := ⟨200, "", some bodyNumLeaf⟩

/-- A network answering every request with `respNumLeaf`. -/
def netNumLeaf : Net := fun _ => .ok respNumLeaf

/-- A network on which every request fails at the transport layer. -/
def downNet : Net := fun _ => .error (.transportError "connection refused")

/-- Marks the trace events of a provider network call. -/
def isCallEvent : Effect → Bool
  | .callStart _ _ => true
  | .callEnd _ _ => true
  | _ => false

/-- A network failing the Claude endpoint at the transport layer and
answering the other endpoints with the expected 200 shape carrying `Y`. -/
def mixedNet : Net := fun req =>
  if req.url = "https://api.anthropic.com/v1/messages" then
    .error (.transportError "connection refused")
  else
    .ok ⟨200, "", some (openaiBody "Y")⟩

/-- Widget state: empty project idea, generate clicked, comparison on. -/
def uiEmptyIdea : UIInput :=
  ⟨"Claude 3.5 Sonnet (Best for Logic)", "", "stuff", true, true⟩

/-- Widget state: comparison mode on, empty requirements, no button press. -/
def uiCompareEmptyReqs : UIInput :=
  ⟨"Claude 3.5 Sonnet (Best for Logic)", "x", "", false, true⟩

/-- Widget state: comparison mode on, non-empty fields, no button press. -/
def uiCompareOnly : UIInput :=
  ⟨"Claude 3.5 Sonnet (Best for Logic)", "i", "r", false, true⟩

/-- Widget state: generate clicked with the Claude model selected,
comparison mode also on. -/
def uiGenClaude : UIInput :=
  ⟨"Claude 3.5 Sonnet (Best for Logic)", "i", "r", true, true⟩

/-- Widget state: generate clicked with the GPT-4o model selected,
comparison mode off. -/
def uiGenOnly : UIInput := ⟨"GPT-4o (Best for Creativity)", "i", "r", true, false⟩

/-! ## Helper lemmas and claim theorems -/

theorem callProvider_eq (p : Provider) (secrets : String → String) (net : Net)
    (prompt : String) :
    callProvider p secrets net prompt =
      (net (providerRequest p secrets prompt)).bind fun response =>
        (raise_for_status response).bind fun _ =>
          response.json.bind fun j => providerExtract p j := by
  cases p <;> rfl

theorem getKey_error (j : Json) (key : String) (e : PyError)
    (h : j.getKey key = .error e) : e = .keyError key ∨ e = .typeError := by
  cases j
  case obj fields =>
    simp only [Json.getKey] at h
    cases hl : fields.lookup key
    · rw [hl] at h
      injection h with h
      subst h
      exact Or.inl rfl
    · rw [hl] at h
      simp at h
  all_goals
    simp only [Json.getKey] at h
    injection h with h
    subst h
    exact Or.inr rfl

theorem getIdx_error (j : Json) (i : Nat) (e : PyError)
    (h : j.getIdx i = .error e) : e.isParseError = true := by
  cases j
  case str s =>
    simp only [Json.getIdx] at h
    cases hl : s.data[i]?
    · rw [hl] at h
      injection h with h
      subst h
      rfl
    · rw [hl] at h
      simp at h
  case arr xs =>
    simp only [Json.getIdx] at h
    cases hl : xs[i]?
    · rw [hl] at h
      injection h with h
      subst h
      rfl
    · rw [hl] at h
      simp at h
  all_goals
    simp only [Json.getIdx] at h
    injection h with h
    subst h
    rfl

theorem getKey_error_isParse (j : Json) (key : String) (e : PyError)
    (h : j.getKey key = .error e) : e.isParseError = true := by
  rcases getKey_error j key e h with h1 | h1 <;> simp [h1, PyError.isParseError]

theorem claudeExtract_error (j : Json) (e : PyError)
    (h : claudeExtract j = .error e) : e.isParseError = true := by
  simp only [claudeExtract] at h
  cases h1 : j.getKey "content" with
  | error a =>
    rw [h1] at h
    simp only [Except.bind] at h
    injection h with h
    subst h
    exact getKey_error_isParse _ _ _ h1
  | ok content =>
    rw [h1] at h
    simp only [Except.bind] at h
    cases h2 : content.getIdx 0 with
    | error a =>
      rw [h2] at h
      simp only [Except.bind] at h
      injection h with h
      subst h
      exact getIdx_error _ _ _ h2
    | ok first =>
      rw [h2] at h
      simp only [Except.bind] at h
      exact getKey_error_isParse _ _ _ h

theorem openaiExtract_error (j : Json) (e : PyError)
    (h : openaiExtract j = .error e) : e.isParseError = true := by
  simp only [openaiExtract] at h
  cases h1 : j.getKey "choices" with
  | error a =>
    rw [h1] at h
    simp only [Except.bind] at h
    injection h with h
    subst h
    exact getKey_error_isParse _ _ _ h1
  | ok choices =>
    rw [h1] at h
    simp only [Except.bind] at h
    cases h2 : choices.getIdx 0 with
    | error a =>
      rw [h2] at h
      simp only [Except.bind] at h
      injection h with h
      subst h
      exact getIdx_error _ _ _ h2
    | ok first =>
      rw [h2] at h
      simp only [Except.bind] at h
      cases h3 : first.getKey "message" with
      | error a =>
        rw [h3] at h
        simp only [Except.bind] at h
        injection h with h
        subst h
        exact getKey_error_isParse _ _ _ h3
      | ok message =>
        rw [h3] at h
        simp only [Except.bind] at h
        exact getKey_error_isParse _ _ _ h

theorem providerExtract_error (p : Provider) (j : Json) (e : PyError)
    (h : providerExtract p j = .error e) : e.isParseError = true := by
  cases p
  case claude => exact claudeExtract_error _ _ h
  case gpt4o => exact openaiExtract_error _ _ h
  case deepseek => exact openaiExtract_error _ _ h

theorem occursIn_iff_infix (sub s : String) :
    occursIn sub s ↔ sub.data <:+: s.data := by
  constructor
  · rintro ⟨a, b, rfl⟩
    exact ⟨a.data, b.data, by simp [String.data_append, List.append_assoc]⟩
  · rintro ⟨t, u, h⟩
    refine ⟨⟨t⟩, ⟨u⟩, ?_⟩
    apply String.ext
    simp only [String.data_append, ← h, List.append_assoc]

theorem metaPromptFormat_inj_right (a b b' : String)
    (h : metaPromptFormat a b = metaPromptFormat a b') : b = b' := by
  have hd : (templatePre.data ++ (a.data ++ templateMid.data)) ++
        (b.data ++ templatePost.data) =
      (templatePre.data ++ (a.data ++ templateMid.data)) ++
        (b'.data ++ templatePost.data) := by
    have := congrArg String.data h
    simpa [metaPromptFormat, String.data_append, List.append_assoc] using this
  have hd2 : b.data ++ templatePost.data = b'.data ++ templatePost.data :=
    List.append_cancel_left hd
  exact String.ext (List.append_cancel_right hd2)

/-- C4: for every provider variant, an HTTP 200 response whose body has the
provider's expected shape — `{"content":[{"text":"X"}]}` for ProviderA
(Claude), `{"choices":[{"message":{"content":"X"}}]}` for ProviderB/C
(GPT-4o/DeepSeek) — makes `generate` return exactly the string `X`. -/
theorem c4_generate_ok_shape (secrets : String → String) (net : Net)
    (prompt X raw : String) :
    (net (claudeRequest secrets prompt) = .ok ⟨200, raw, some (claudeBody X)⟩ →
      call_claude secrets net prompt = .ok (Json.str X)) ∧
    (net (gpt4oRequest secrets prompt) = .ok ⟨200, raw, some (openaiBody X)⟩ →
      call_gpt4o secrets net prompt = .ok (Json.str X)) ∧
    (net (deepseekRequest secrets prompt) = .ok ⟨200, raw, some (openaiBody X)⟩ →
      call_deepseek secrets net prompt = .ok (Json.str X)) := by
  refine ⟨fun h => ?_, fun h => ?_, fun h => ?_⟩
  · unfold call_claude
    rw [h]
    rfl
  · unfold call_gpt4o
    rw [h]
    rfl
  · unfold call_deepseek
    rw [h]
    rfl

/-- Witness for C4 at a concrete network: all three calls return `"X"`. -/
theorem c4_generate_ok_shape_witness :
    call_claude mockSecrets okNet "p" = .ok (Json.str "X") ∧
    call_gpt4o mockSecrets okNet "p" = .ok (Json.str "X") ∧
    call_deepseek mockSecrets okNet "p" = .ok (Json.str "X") :=
  ⟨(c4_generate_ok_shape mockSecrets okNet "p" "X" "").1 rfl,
   (c4_generate_ok_shape mockSecrets okNet "p" "X" "").2.1 rfl,
   (c4_generate_ok_shape mockSecrets okNet "p" "X" "").2.2 rfl⟩

/-- C5 (amended): for every provider variant, `generate` fails with the
HTTP error carrying the response's status and body when the status is 4xx
or 5xx (in particular a 401 carries status 401) — but not for other non-2xx
statuses such as 3xx, which pass `raise_for_status`; on a response that
passes the status check (status < 400) it fails with the JSON-decode error
when the body is malformed, and with the parse error produced by the
extraction path whenever subscripting along the fixed key path fails; but
when the extraction path succeeds the extracted value is returned as-is,
with no check that it is a string, so a wrong-typed leaf is not detected;
and no partial result is ever returned — the call is either one error or
the one extracted value.  (Both corrections — "non-2xx" narrowed to
"4xx/5xx", and the undetected wrong-typed leaf — are exhibited by the
counterexample.) -/
theorem c5_error_conditions (p : Provider) (secrets : String → String)
    (net : Net) (prompt : String) (response : HttpResponse)
    (hnet : net (providerRequest p secrets prompt) = .ok response) :
    (400 ≤ response.status_code → response.status_code < 600 →
      callProvider p secrets net prompt =
        .error (.httpError response.status_code response.text)) ∧
    (response.status_code < 400 → response.jsonBody = none →
      callProvider p secrets net prompt = .error .jsonDecodeError) ∧
    (∀ j e, response.status_code < 400 → response.jsonBody = some j →
      providerExtract p j = .error e →
      callProvider p secrets net prompt = .error e ∧ e.isParseError = true) ∧
    (∀ j v, response.status_code < 400 → response.jsonBody = some j →
      providerExtract p j = .ok v →
      callProvider p secrets net prompt = .ok v) ∧
    ((∃ e, callProvider p secrets net prompt = .error e) ∨
      (∃ v, callProvider p secrets net prompt = .ok v)) := by
  have hcall := callProvider_eq p secrets net prompt
  rw [hnet] at hcall
  simp only [Except.bind] at hcall
  refine ⟨?_, ?_, ?_, ?_, ?_⟩
  · intro h4 h6
    rw [hcall]
    simp only [raise_for_status]
    rw [if_pos ⟨h4, h6⟩]
  · intro hlt hnone
    have h' : ¬(400 ≤ response.status_code ∧ response.status_code < 600) := by omega
    rw [hcall]
    simp only [raise_for_status]
    rw [if_neg h']
    simp only [Except.bind, HttpResponse.json, hnone]
  · intro j e hlt hsome hext
    have h' : ¬(400 ≤ response.status_code ∧ response.status_code < 600) := by omega
    refine ⟨?_, providerExtract_error p j e hext⟩
    rw [hcall]
    simp only [raise_for_status]
    rw [if_neg h']
    simp only [Except.bind, HttpResponse.json, hsome, hext]
  · intro j v hlt hsome hext
    have h' : ¬(400 ≤ response.status_code ∧ response.status_code < 600) := by omega
    rw [hcall]
    simp only [raise_for_status]
    rw [if_neg h']
    simp only [Except.bind, HttpResponse.json, hsome, hext]
  · cases h2 : callProvider p secrets net prompt with
    | error e => exact Or.inl ⟨e, rfl⟩
    | ok v => exact Or.inr ⟨v, rfl⟩

/-- Witness for C5: a 401 response makes the Claude call fail with the HTTP
error carrying status 401 and the body, and a 200 response whose extraction
path yields the number 42 makes it return exactly that value. -/
theorem c5_error_conditions_witness :
    callProvider Provider.claude mockSecrets net401 "p" =
      .error (.httpError 401 "Unauthorized") ∧
    callProvider Provider.claude mockSecrets netNumLeaf "p" =
      .ok (Json.num 42) :=
  ⟨(c5_error_conditions Provider.claude mockSecrets net401 "p" resp401 rfl).1
      (by decide) (by decide),
   (c5_error_conditions Provider.claude mockSecrets netNumLeaf "p" respNumLeaf
      rfl).2.2.2.1 bodyNumLeaf (Json.num 42) (by decide) rfl rfl⟩

/-- C5 counterexample, in two parts.  First: on a 304 response — non-2xx —
with a body of the expected shape, `call_claude` returns `"X"` instead of
failing with a provider error, because `raise_for_status` raises only for
4xx/5xx.  Second: on a 200 response whose body `{"content":[{"text":42}]}`
violates the expected shape (the leaf is a number, not a string),
`call_claude` returns the number 42 instead of failing: the extracted
leaf's type is never checked. -/
theorem c5_counterexample :
    (¬(200 ≤ resp304.status_code ∧ resp304.status_code < 300) ∧
      call_claude mockSecrets net304 "p" = .ok (Json.str "X")) ∧
    (respNumLeaf.status_code = 200 ∧
      call_claude mockSecrets netNumLeaf "p" = .ok (Json.num 42)) :=
  ⟨⟨by decide, rfl⟩, ⟨rfl, rfl⟩⟩

/-- C6: for every non-empty project idea and every requirements string
(including the empty string), the rendered prompt contains both inputs
verbatim and the template's section headers (PROJECT IDEA, REQUIREMENTS,
Role, Context, Task Instructions, Constraints, Output Format) in their
fixed order. -/
theorem c6_render_contains (project_idea requirements : String)
    (_h : project_idea ≠ "") :
    occursIn project_idea (metaPromptFormat project_idea requirements) ∧
    occursIn requirements (metaPromptFormat project_idea requirements) ∧
    headersInOrder (metaPromptFormat project_idea requirements) := by
  refine ⟨⟨templatePre, templateMid ++ requirements ++ templatePost, ?_⟩,
    ⟨templatePre ++ project_idea ++ templateMid, templatePost, ?_⟩, ?_⟩
  · simp only [metaPromptFormat, String.append_assoc]
  · simp only [metaPromptFormat, String.append_assoc]
  · exact ⟨segIntro, "\n" ++ project_idea ++ "\n\n",
      "\n" ++ requirements ++ segStruct, segRoleTail, segContextTail,
      segTaskTail, segConstraintsTail, segOutputTail, by
        simp only [metaPromptFormat, templatePre, templateMid, templatePost,
          String.append_assoc]⟩

/-- Witness for C6 at project idea `"x"` and empty requirements. -/
theorem c6_render_contains_witness :
    occursIn "x" (metaPromptFormat "x" "") ∧
    occursIn "" (metaPromptFormat "x" "") ∧
    headersInOrder (metaPromptFormat "x" "") :=
  c6_render_contains "x" "" (by decide)

theorem callStart_comparisonSlot (q p : Provider) (secrets : String → String)
    (net : Net) (prompt pr : String)
    (hmem : Effect.callStart q pr ∈ comparisonSlot p secrets net prompt) :
    pr = prompt := by
  rcases hr : callProvider p secrets net prompt with e | result <;>
    simp [comparisonSlot, hr] at hmem <;> exact hmem.2

theorem comparisonSection_unfold (ui : UIInput) (secrets : String → String)
    (net : Net) (hc : ui.compare = true) (hi : ui.project_idea ≠ "") :
    comparisonSection ui secrets net =
      Effect.header "🆚 Compare Multiple Models" ::
      Effect.spinner "Comparing models..." :: Effect.makeColumns 3 ::
        (comparisonSlot .claude secrets net
            (metaPromptFormat ui.project_idea ui.requirements) ++
         comparisonSlot .gpt4o secrets net
            (metaPromptFormat ui.project_idea ui.requirements) ++
         comparisonSlot .deepseek secrets net
            (metaPromptFormat ui.project_idea ui.requirements)) := by
  simp [comparisonSection, hc, hi]

theorem slot_sub_comparisonSection (ui : UIInput) (secrets : String → String)
    (net : Net) (hc : ui.compare = true) (hi : ui.project_idea ≠ "")
    (p : Provider) (e : Effect)
    (he : e ∈ comparisonSlot p secrets net
        (metaPromptFormat ui.project_idea ui.requirements)) :
    e ∈ comparisonSection ui secrets net := by
  rw [comparisonSection_unfold ui secrets net hc hi]
  refine List.mem_cons_of_mem _ (List.mem_cons_of_mem _ (List.mem_cons_of_mem _ ?_))
  cases p
  case claude => exact List.mem_append_left _ (List.mem_append_left _ he)
  case gpt4o => exact List.mem_append_left _ (List.mem_append_right _ he)
  case deepseek => exact List.mem_append_right _ he

/-- C2: whenever the project-idea field is empty, no provider network call
is initiated on any path — the button handler rejects the input, and the
comparison-mode guard is false. -/
theorem c2_empty_idea_no_network (ui : UIInput) (secrets : String → String)
    (net : Net) (h : ui.project_idea = "") (p : Provider) (prompt : String) :
    Effect.callStart p prompt ∉ runScript ui secrets net := by
  cases hg : ui.generate_clicked <;>
    simp [runScript, singleSection, comparisonSection, introEffects, h, hg]

/-- Witness for C2 at a concrete run with an empty project idea. -/
theorem c2_empty_idea_no_network_witness :
    Effect.callStart Provider.claude "p" ∉
      runScript uiEmptyIdea mockSecrets downNet :=
  c2_empty_idea_no_network uiEmptyIdea mockSecrets downNet rfl Provider.claude "p"

/-- C1 (amended): when the requirements field is empty, the single-model
path renders the prompt with the sentinel `"No extra requirements."`
substituted, but the comparison-mode path substitutes the raw requirements
value, so the empty requirements stays empty in its rendered prompts. -/
theorem c1_sentinel_single_mode_only (ui : UIInput)
    (secrets : String → String) (net : Net) (h : ui.requirements = "") :
    (∀ p prompt, Effect.callStart p prompt ∈ (singleSection ui secrets net).1 →
      prompt = metaPromptFormat ui.project_idea "No extra requirements.") ∧
    (∀ p prompt, Effect.callStart p prompt ∈ comparisonSection ui secrets net →
      prompt = metaPromptFormat ui.project_idea "") := by
  constructor
  · intro p prompt hmem
    cases hg : ui.generate_clicked
    · simp [singleSection, hg] at hmem
    · by_cases hidea : ui.project_idea = ""
      · simp [singleSection, hg, hidea] at hmem
      · have hps : pySentinel ui.requirements = "No extra requirements." := by
          simp [pySentinel, h]
        rw [← hps]
        rcases hr : callProvider (selectedProvider ui.model) secrets net
            (metaPromptFormat ui.project_idea (pySentinel ui.requirements))
          with e | result <;>
          simp [singleSection, hg, hidea, hr] at hmem <;>
          exact hmem.2
  · intro p prompt hmem
    by_cases hcmp : ui.compare = true
    · by_cases hidea : ui.project_idea ≠ ""
      · rw [comparisonSection_unfold ui secrets net hcmp hidea] at hmem
        rw [← h]
        simp only [List.mem_cons, List.mem_append] at hmem
        rcases hmem with hmem | hmem | hmem | (hmem | hmem) | hmem
        · simp at hmem
        · simp at hmem
        · simp at hmem
        · exact callStart_comparisonSlot p .claude secrets net _ prompt hmem
        · exact callStart_comparisonSlot p .gpt4o secrets net _ prompt hmem
        · exact callStart_comparisonSlot p .deepseek secrets net _ prompt hmem
      · simp [comparisonSection, hidea] at hmem
    · simp [comparisonSection, hcmp] at hmem

/-- Witness for C1's amended statement: comparison-only run with empty
requirements. -/
theorem c1_sentinel_single_mode_only_witness :
    (∀ p prompt, Effect.callStart p prompt ∈
        (singleSection uiCompareEmptyReqs mockSecrets downNet).1 →
      prompt = metaPromptFormat "x" "No extra requirements.") ∧
    (∀ p prompt, Effect.callStart p prompt ∈
        comparisonSection uiCompareEmptyReqs mockSecrets downNet →
      prompt = metaPromptFormat "x" "") :=
  c1_sentinel_single_mode_only uiCompareEmptyReqs mockSecrets downNet rfl

/-- C1 counterexample: in a comparison-mode run with empty requirements, a
provider call is issued whose rendered prompt is NOT the sentinel-substituted
render — the raw empty string was substituted instead. -/
theorem c1_counterexample :
    Effect.callStart Provider.claude (metaPromptFormat "x" "") ∈
      runScript uiCompareEmptyReqs mockSecrets downNet ∧
    metaPromptFormat "x" "" ≠ metaPromptFormat "x" "No extra requirements." := by
  constructor
  · have hr : callProvider .claude mockSecrets downNet (metaPromptFormat "x" "") =
        .error (.transportError "connection refused") := rfl
    simp [runScript, singleSection, uiCompareEmptyReqs, introEffects,
      comparisonSection, comparisonSlot, hr]
  · intro h
    have h2 : ("" : String) = "No extra requirements." :=
      metaPromptFormat_inj_right "x" "" "No extra requirements." h
    simp at h2

/-- C3: in comparison mode (checkbox on, non-empty idea), every provider's
call completes and its own result is rendered into its own column, for every
network behavior — in particular a failure of any other provider's call
neither prevents this provider's call (its `callEnd` is always in the trace)
nor its rendering (code block plus download button on success, the error
message in its own column on failure). -/
theorem c3_slots_independent (ui : UIInput) (secrets : String → String)
    (net : Net) (hc : ui.compare = true) (hi : ui.project_idea ≠ "")
    (p : Provider) :
    (Effect.callEnd p (callProvider p secrets net
        (metaPromptFormat ui.project_idea ui.requirements)) ∈
      comparisonSection ui secrets net) ∧
    (∀ result, callProvider p secrets net
          (metaPromptFormat ui.project_idea ui.requirements) = .ok result →
      Effect.codeBlock (some (slotCol p)) result "markdown" ∈
          comparisonSection ui secrets net ∧
      Effect.downloadButton (some (slotCol p)) "Download" result
          (slotFileName p) none (some (slotKey p)) ∈
        comparisonSection ui secrets net) ∧
    (∀ e, callProvider p secrets net
          (metaPromptFormat ui.project_idea ui.requirements) = .error e →
      Effect.errorMsg (some (slotCol p)) (slotErrLabel p ++ e.toMessage) ∈
        comparisonSection ui secrets net) := by
  refine ⟨?_, fun result hr => ⟨?_, ?_⟩, fun e hr => ?_⟩ <;>
    refine slot_sub_comparisonSection ui secrets net hc hi p _ ?_
  · rcases hr : callProvider p secrets net
        (metaPromptFormat ui.project_idea ui.requirements) with e | result <;>
      simp [comparisonSlot, hr]
  · simp [comparisonSlot, hr]
  · simp [comparisonSlot, hr]
  · simp [comparisonSlot, hr]

/-- Witness for C3: with the Claude endpoint down and the others up, the
GPT-4o slot still renders its own result and the Claude slot its error. -/
theorem c3_slots_independent_witness :
    Effect.codeBlock (some 1) (Json.str "Y") "markdown" ∈
      comparisonSection uiCompareOnly mockSecrets mixedNet ∧
    Effect.errorMsg (some 0) ("Claude Error: " ++ "connection refused") ∈
      comparisonSection uiCompareOnly mockSecrets mixedNet :=
  ⟨((c3_slots_independent uiCompareOnly mockSecrets mixedNet rfl (by decide)
      Provider.gpt4o).2.1 (Json.str "Y") rfl).1,
   (c3_slots_independent uiCompareOnly mockSecrets mixedNet rfl (by decide)
      Provider.claude).2.2 (.transportError "connection refused") rfl⟩

/-- C10: in comparison mode the call events of the trace are exactly the
strictly sequential sequence Claude start/end, then GPT-4o start/end, then
DeepSeek start/end: each call begins only after the previous one completed,
and no two calls are ever in flight at once. -/
theorem c10_calls_sequential (ui : UIInput) (secrets : String → String)
    (net : Net) (hc : ui.compare = true) (hi : ui.project_idea ≠ "") :
    (comparisonSection ui secrets net).filter isCallEvent =
      [.callStart .claude (metaPromptFormat ui.project_idea ui.requirements),
       .callEnd .claude (callProvider .claude secrets net
          (metaPromptFormat ui.project_idea ui.requirements)),
       .callStart .gpt4o (metaPromptFormat ui.project_idea ui.requirements),
       .callEnd .gpt4o (callProvider .gpt4o secrets net
          (metaPromptFormat ui.project_idea ui.requirements)),
       .callStart .deepseek (metaPromptFormat ui.project_idea ui.requirements),
       .callEnd .deepseek (callProvider .deepseek secrets net
          (metaPromptFormat ui.project_idea ui.requirements))] := by
  rw [comparisonSection_unfold ui secrets net hc hi]
  rcases h0 : callProvider .claude secrets net
      (metaPromptFormat ui.project_idea ui.requirements) with e0 | r0 <;>
  rcases h1 : callProvider .gpt4o secrets net
      (metaPromptFormat ui.project_idea ui.requirements) with e1 | r1 <;>
  rcases h2 : callProvider .deepseek secrets net
      (metaPromptFormat ui.project_idea ui.requirements) with e2 | r2 <;>
    simp [comparisonSlot, h0, h1, h2, isCallEvent, List.filter_append,
      List.filter]

/-- Witness for C10 at a concrete comparison-mode run. -/
theorem c10_calls_sequential_witness :
    (comparisonSection uiCompareOnly mockSecrets downNet).filter isCallEvent =
      [.callStart .claude (metaPromptFormat "i" "r"),
       .callEnd .claude (callProvider .claude mockSecrets downNet
          (metaPromptFormat "i" "r")),
       .callStart .gpt4o (metaPromptFormat "i" "r"),
       .callEnd .gpt4o (callProvider .gpt4o mockSecrets downNet
          (metaPromptFormat "i" "r")),
       .callStart .deepseek (metaPromptFormat "i" "r"),
       .callEnd .deepseek (callProvider .deepseek mockSecrets downNet
          (metaPromptFormat "i" "r"))] :=
  c10_calls_sequential uiCompareOnly mockSecrets downNet rfl (by decide)

/-- C8: in single-model mode, when the selected provider's call raises any
error, the run emits the error message and then `st.stop()`: the trace ends
right there, and in particular no effect of the comparison-mode section (not
even its header) appears in the run. -/
theorem c8_single_error_stops (ui : UIInput) (secrets : String → String)
    (net : Net) (e : PyError) (hg : ui.generate_clicked = true)
    (hi : ui.project_idea ≠ "")
    (hr : callProvider (selectedProvider ui.model) secrets net
        (metaPromptFormat ui.project_idea (pySentinel ui.requirements)) =
      .error e) :
    runScript ui secrets net =
      introEffects ++
        [.spinner "Crafting your perfect prompt...",
         .callStart (selectedProvider ui.model)
           (metaPromptFormat ui.project_idea (pySentinel ui.requirements)),
         .callEnd (selectedProvider ui.model) (.error e),
         .errorMsg none (errorLabel (selectedProvider ui.model) ++ e.toMessage),
         .stopRun] ∧
      Effect.header "🆚 Compare Multiple Models" ∉ runScript ui secrets net := by
  have hs : singleSection ui secrets net =
      ([.spinner "Crafting your perfect prompt...",
        .callStart (selectedProvider ui.model)
          (metaPromptFormat ui.project_idea (pySentinel ui.requirements)),
        .callEnd (selectedProvider ui.model) (.error e),
        .errorMsg none (errorLabel (selectedProvider ui.model) ++ e.toMessage),
        .stopRun], true) := by
    simp [singleSection, hg, hi, hr]
  constructor
  · simp [runScript, hs]
  · simp [runScript, hs, introEffects]

/-- Witness for C8: a concrete generate-click run with the network down;
the trace is exactly intro, spinner, the failed call, the error, stop. -/
theorem c8_single_error_stops_witness :
    runScript uiGenClaude mockSecrets downNet =
      introEffects ++
        [.spinner "Crafting your perfect prompt...",
         .callStart (selectedProvider uiGenClaude.model)
           (metaPromptFormat uiGenClaude.project_idea
             (pySentinel uiGenClaude.requirements)),
         .callEnd (selectedProvider uiGenClaude.model)
           (.error (.transportError "connection refused")),
         .errorMsg none (errorLabel (selectedProvider uiGenClaude.model) ++
           (PyError.transportError "connection refused").toMessage),
         .stopRun] ∧
      Effect.header "🆚 Compare Multiple Models" ∉
        runScript uiGenClaude mockSecrets downNet :=
  c8_single_error_stops uiGenClaude mockSecrets downNet
    (.transportError "connection refused") rfl (by decide) rfl

theorem downloadButton_singleSection (ui : UIInput)
    (secrets : String → String) (net : Net) (c : Option Nat) (label : String)
    (d : Json) (fn : String) (m k : Option String)
    (h : Effect.downloadButton c label d fn m k ∈
      (singleSection ui secrets net).1) :
    c = none ∧ fn = "ai_prompt.md" ∧
      Effect.codeBlock none d "markdown" ∈ (singleSection ui secrets net).1 := by
  cases hg : ui.generate_clicked
  · simp [singleSection, hg] at h
  · by_cases hidea : ui.project_idea = ""
    · simp [singleSection, hg, hidea] at h
    · rcases hr : callProvider (selectedProvider ui.model) secrets net
          (metaPromptFormat ui.project_idea (pySentinel ui.requirements))
        with e | result <;>
        simp [singleSection, hg, hidea, hr] at h
      obtain ⟨hc, hl, hd, hfn, hm, hk⟩ := h
      subst hc
      subst hd
      subst hfn
      exact ⟨rfl, rfl, by simp [singleSection, hg, hidea, hr]⟩

theorem downloadButton_comparisonSlot (p : Provider)
    (secrets : String → String) (net : Net) (prompt : String) (c : Option Nat)
    (label : String) (d : Json) (fn : String) (m k : Option String)
    (h : Effect.downloadButton c label d fn m k ∈
      comparisonSlot p secrets net prompt) :
    c = some (slotCol p) ∧ fn = slotFileName p ∧
      Effect.codeBlock (some (slotCol p)) d "markdown" ∈
        comparisonSlot p secrets net prompt := by
  rcases hr : callProvider p secrets net prompt with e | result <;>
    simp [comparisonSlot, hr] at h
  obtain ⟨hc, hl, hd, hfn, hm, hk⟩ := h
  subst hc
  subst hd
  subst hfn
  exact ⟨rfl, rfl, by simp [comparisonSlot, hr]⟩

theorem downloadButton_comparisonSection (ui : UIInput)
    (secrets : String → String) (net : Net) (c : Option Nat) (label : String)
    (d : Json) (fn : String) (m k : Option String)
    (h : Effect.downloadButton c label d fn m k ∈
      comparisonSection ui secrets net) :
    ∃ p : Provider, c = some (slotCol p) ∧ fn = slotFileName p ∧
      Effect.codeBlock (some (slotCol p)) d "markdown" ∈
        comparisonSection ui secrets net := by
  by_cases hc2 : ui.compare = true
  · by_cases hidea : ui.project_idea ≠ ""
    · rw [comparisonSection_unfold ui secrets net hc2 hidea] at h
      simp only [List.mem_cons, List.mem_append] at h
      rcases h with h | h | h | (h | h) | h
      · simp at h
      · simp at h
      · simp at h
      · obtain ⟨h1, h2, h3⟩ :=
          downloadButton_comparisonSlot .claude secrets net _ c label d fn m k h
        exact ⟨.claude, h1, h2,
          slot_sub_comparisonSection ui secrets net hc2 hidea .claude _ h3⟩
      · obtain ⟨h1, h2, h3⟩ :=
          downloadButton_comparisonSlot .gpt4o secrets net _ c label d fn m k h
        exact ⟨.gpt4o, h1, h2,
          slot_sub_comparisonSection ui secrets net hc2 hidea .gpt4o _ h3⟩
      · obtain ⟨h1, h2, h3⟩ :=
          downloadButton_comparisonSlot .deepseek secrets net _ c label d fn m k h
        exact ⟨.deepseek, h1, h2,
          slot_sub_comparisonSection ui secrets net hc2 hidea .deepseek _ h3⟩
    · simp [comparisonSection, hidea] at h
  · simp [comparisonSection, hc2] at h

theorem downloadButton_runScript (ui : UIInput) (secrets : String → String)
    (net : Net) (c : Option Nat) (label : String) (d : Json) (fn : String)
    (m k : Option String)
    (h : Effect.downloadButton c label d fn m k ∈ runScript ui secrets net) :
    Effect.codeBlock c d "markdown" ∈ runScript ui secrets net ∧
      ((c = none ∧ fn = "ai_prompt.md") ∨
        ∃ p : Provider, c = some (slotCol p) ∧ fn = slotFileName p) := by
  rw [runScript] at h
  simp only [List.mem_append] at h
  rcases h with (h | h) | h
  · simp [introEffects] at h
  · obtain ⟨hc, hfn, hcb⟩ :=
      downloadButton_singleSection ui secrets net c label d fn m k h
    subst hc
    refine ⟨?_, Or.inl ⟨rfl, hfn⟩⟩
    rw [runScript]
    simp only [List.mem_append]
    exact Or.inl (Or.inr hcb)
  · cases hstop : (singleSection ui secrets net).2
    · rw [hstop] at h
      simp only [Bool.false_eq_true, if_false] at h
      obtain ⟨p, h1, h2, h3⟩ :=
        downloadButton_comparisonSection ui secrets net c label d fn m k h
      subst h1
      refine ⟨?_, Or.inr ⟨p, rfl, h2⟩⟩
      rw [runScript]
      simp only [List.mem_append, hstop, Bool.false_eq_true, if_false]
      exact Or.inr h3
    · rw [hstop] at h
      simp at h

/-- C7: whatever a run of the script displays next to a download button —
in single-model mode or in any comparison-mode slot — the data offered by
the download affordance is the very value displayed in that slot's code
block: the same string is passed to both. -/
theorem c7_download_matches_display (ui : UIInput)
    (secrets : String → String) (net : Net) (c : Option Nat) (label : String)
    (d : Json) (fn : String) (m k : Option String)
    (h : Effect.downloadButton c label d fn m k ∈ runScript ui secrets net) :
    Effect.codeBlock c d "markdown" ∈ runScript ui secrets net :=
  (downloadButton_runScript ui secrets net c label d fn m k h).1

/-- C9: the single-model download button (main page area) always carries the
file name `ai_prompt.md`, whatever the provider selection; the comparison
slots carry `claude_prompt.md`, `gpt_prompt.md`, `deepseek_prompt.md` by
column. -/
theorem c9_download_filenames (ui : UIInput) (secrets : String → String)
    (net : Net) :
    (∀ label d fn m k,
      Effect.downloadButton none label d fn m k ∈ runScript ui secrets net →
        fn = "ai_prompt.md") ∧
    (∀ col label d fn m k,
      Effect.downloadButton (some col) label d fn m k ∈
          runScript ui secrets net →
        (col = 0 ∧ fn = "claude_prompt.md") ∨
        (col = 1 ∧ fn = "gpt_prompt.md") ∨
        (col = 2 ∧ fn = "deepseek_prompt.md")) := by
  constructor
  · intro label d fn m k h
    rcases (downloadButton_runScript ui secrets net none label d fn m k h).2
      with ⟨_, hfn⟩ | ⟨p, hp, _⟩
    · exact hfn
    · simp at hp
  · intro col label d fn m k h
    rcases (downloadButton_runScript ui secrets net (some col) label d fn m k
        h).2 with ⟨hc, _⟩ | ⟨p, hp, hfn⟩
    · simp at hc
    · injection hp with hp
      subst hp
      cases p
      case claude => exact Or.inl ⟨rfl, hfn⟩
      case gpt4o => exact Or.inr (Or.inl ⟨rfl, hfn⟩)
      case deepseek => exact Or.inr (Or.inr ⟨rfl, hfn⟩)

/-- Witness for C7 at a concrete comparison-mode run: the GPT-4o slot's
download button carries the same value its code block displays. -/
theorem c7_download_matches_display_witness :
    Effect.downloadButton (some 1) "Download" (Json.str "X") "gpt_prompt.md"
        none (some "gpt_dl") ∈ runScript uiCompareOnly mockSecrets okNet ∧
    Effect.codeBlock (some 1) (Json.str "X") "markdown" ∈
      runScript uiCompareOnly mockSecrets okNet := by
  have h0 : callProvider Provider.claude mockSecrets okNet
      (metaPromptFormat "i" "r") = .ok (Json.str "X") := rfl
  have h1 : callProvider Provider.gpt4o mockSecrets okNet
      (metaPromptFormat "i" "r") = .ok (Json.str "X") := rfl
  have h2 : callProvider Provider.deepseek mockSecrets okNet
      (metaPromptFormat "i" "r") = .ok (Json.str "X") := rfl
  have hmem : Effect.downloadButton (some 1) "Download" (Json.str "X")
      "gpt_prompt.md" none (some "gpt_dl") ∈
      runScript uiCompareOnly mockSecrets okNet := by
    simp [runScript, uiCompareOnly, singleSection, comparisonSection,
      comparisonSlot, introEffects, h0, h1, h2, slotCol, slotName,
      slotFileName, slotKey]
  exact ⟨hmem, c7_download_matches_display uiCompareOnly mockSecrets okNet
    (some 1) "Download" (Json.str "X") "gpt_prompt.md" none (some "gpt_dl") hmem⟩

/-- Witness for C9 at a concrete single-model run with the GPT-4o model
selected: the main-area download button exists and carries `ai_prompt.md`. -/
theorem c9_download_filenames_witness :
    Effect.downloadButton none "📋 Copy Prompt to Clipboard" (Json.str "X")
        "ai_prompt.md" (some "text/markdown") none ∈
      runScript uiGenOnly mockSecrets okNet ∧
    ("ai_prompt.md" : String) = "ai_prompt.md" := by
  have hsel : selectedProvider "GPT-4o (Best for Creativity)" =
      Provider.gpt4o := rfl
  have h1 : callProvider Provider.gpt4o mockSecrets okNet
      (metaPromptFormat "i" "r") = .ok (Json.str "X") := rfl
  have hmem : Effect.downloadButton none "📋 Copy Prompt to Clipboard"
      (Json.str "X") "ai_prompt.md" (some "text/markdown") none ∈
      runScript uiGenOnly mockSecrets okNet := by
    simp [runScript, uiGenOnly, singleSection, comparisonSection, pySentinel,
      introEffects, hsel, h1]
  exact ⟨hmem, (c9_download_filenames uiGenOnly mockSecrets okNet).1
    "📋 Copy Prompt to Clipboard" (Json.str "X") "ai_prompt.md"
    (some "text/markdown") none hmem⟩

end PromptGen
